import Mathlib

/-!
# Verification of the origin-rebasing subsystem of `large-coordinate-rendering`

Shallow embedding of the TypeScript sources (`src/utils.ts`, `src/drawing.ts`,
`src/scene.ts`, `src/camera.ts`, `src/view.ts`).  JavaScript numbers are
modelled as real numbers (`ℝ`); THREE.js `Vector2` values are `Vec2`.  The
camera in this application always has the identity rotation (it is created
axis-aligned and `zoomTo` forces `setRotationFromEuler(new Euler(0, 0, 0))`),
so the view transform is the translation by the camera position and the
orthographic projection formulas below are exactly THREE's
`OrthographicCamera.updateProjectionMatrix` / `makeOrthographic` specialised
to that situation.
-/

noncomputable section

/-- A 2D point / vector, THREE.js `Vector2` with real coordinates. -/
@[ext] structure Vec2 where
  x : ℝ
  y : ℝ

/-- THREE.js `Vector2.add`, componentwise. -/
def Vec2.add (a b : Vec2) : Vec2 := ⟨a.x + b.x, a.y + b.y⟩

/-- THREE.js `Vector2.sub`, componentwise. -/
def Vec2.sub (a b : Vec2) : Vec2 := ⟨a.x - b.x, a.y - b.y⟩

/-- A materialized renderable object (`THREE.LineLoop`): its
`BufferGeometry` is the list of 2D positions (the `z = 0` coordinate of the
source's `Vector3` points is dropped), its `LineBasicMaterial` is the color. -/
structure Object3D where
  points : List Vec2
  color : ℕ

/-- The `i`-th vertex generated by the loop body of `createCircleLine`
(`src/utils.ts`): `theta = (i / segments) * Math.PI * 2`, and the point is
`(centerX + cos(theta) * radius, centerY + sin(theta) * radius)`. -/
def circlePoint (centerX centerY radius : ℝ) (segments i : ℕ) : Vec2 :=
  let theta := ((i : ℝ) / (segments : ℝ)) * Real.pi * 2
  ⟨centerX + Real.cos theta * radius, centerY + Real.sin theta * radius⟩

/-- `createCircleLine` (`src/utils.ts`): pushes the vertices for
`i = 0, …, segments − 1` and returns a `LineLoop` built from those points and
a `LineBasicMaterial({ color })`.  Defaults: `segments = 128`,
`color = 0xff0000`. -/
def createCircleLine (centerX centerY radius : ℝ) (segments : ℕ := 128)
    (color : ℕ := 0xff0000) : Object3D :=
  { points := (List.range segments).map (circlePoint centerX centerY radius segments)
    color := color }

/-- The edges a `THREE.LineLoop` renders: consecutive vertices, plus the
implicit edge joining the last vertex back to the first (this closing edge is
what distinguishes `LineLoop` from `Line`). -/
def Object3D.loopEdges (o : Object3D) : List (Vec2 × Vec2) :=
  o.points.zip (o.points.rotate 1)

example : (createCircleLine 0 0 1 4 0).points.length = 4 := by
  simp [createCircleLine]

example : (10e8 * 4 : ℝ) = 4000000000 := by norm_num

example : ((0 : ℝ) / 128) * Real.pi * 2 = 0 := by norm_num

/-! ## Drawing (`src/drawing.ts`)

`Drawing` owns the base point and a root group of materialized objects.  To
settle the resource-lifecycle claim we instrument the operations with a trace
of rendering-stage resource events (`geometry.dispose()`,
`material.dispose()`, object creation), in the order the source emits them. -/

/-- A rendering-stage resource event, in source order:
`clear()` emits `disposeGeometry` then `disposeMaterial` per removed child
(every child here is a `LineLoop`, which always has both a geometry and a
non-array material), and `buildDraw()` creates one new object. -/
inductive REvent
  | disposeGeometry (points : List Vec2)
  | disposeMaterial (color : ℕ)
  | createObject (points : List Vec2)

/-- Is this event the creation of a materialized object? -/
def REvent.isCreate : REvent → Bool
  | .createObject _ => true
  | _ => false

/-- Is this event the disposal of a rendering-stage resource? -/
def REvent.isDispose : REvent → Bool
  | .disposeGeometry _ => true
  | .disposeMaterial _ => true
  | .createObject _ => false

/-- Drawing state: the current base point and the children of its root
group (`_basePoint` and `_rootGroup` in `src/drawing.ts`). -/
structure Drawing where
  basePoint : Vec2
  rootGroupChildren : List Object3D

/-- The events emitted by the `while` loop of `Drawing.clear`: the loop takes
the first child, removes it, disposes its geometry, then disposes its
material, and continues with the remaining children. -/
def disposeEvents : List Object3D → List REvent
  | [] => []
  | c :: rest =>
      REvent.disposeGeometry c.points :: REvent.disposeMaterial c.color :: disposeEvents rest

/-- `Drawing.clear` (`src/drawing.ts`), with its resource-event trace:
removes every child of the root group, disposing geometry and material of
each. -/
def Drawing.clearT (d : Drawing) : Drawing × List REvent :=
  ({ d with rootGroupChildren := [] }, disposeEvents d.rootGroupChildren)

/-- `Drawing.buildDraw` (`src/drawing.ts`), with its resource-event trace:
creates the circle `createCircleLine(10e8 * 4 - basePoint.x,
10e8 * 4 - basePoint.y, 1000)` and adds it to the root group. -/
def Drawing.buildDrawT (d : Drawing) : Drawing × List REvent :=
  let circle := createCircleLine (10e8 * 4 - d.basePoint.x) (10e8 * 4 - d.basePoint.y) 1000
  ({ d with rootGroupChildren := d.rootGroupChildren ++ [circle] },
   [REvent.createObject circle.points])

/-- The `basePoint` setter (`src/drawing.ts`), with its resource-event trace:
`_basePoint.copy(value); this.clear(); this.buildDraw()`. -/
def Drawing.setBasePointT (d : Drawing) (value : Vec2) : Drawing × List REvent :=
  let s1 := Drawing.clearT { d with basePoint := value }
  let s2 := Drawing.buildDrawT s1.1
  (s2.1, s1.2 ++ s2.2)

/-- The `basePoint` setter, state part only. -/
def Drawing.setBasePoint (d : Drawing) (value : Vec2) : Drawing :=
  (Drawing.setBasePointT d value).1

/-- The `Drawing` constructor: base point `new Vector2()` = `(0, 0)`, empty
root group, then `buildDraw()`. -/
def Drawing.new : Drawing :=
  (Drawing.buildDrawT { basePoint := ⟨0, 0⟩, rootGroupChildren := [] }).1

/-- All vertices of the currently materialized geometry of a drawing. -/
def Drawing.materializedPoints (d : Drawing) : List Vec2 :=
  d.rootGroupChildren.flatMap Object3D.points

example :
    Drawing.setBasePoint Drawing.new ⟨1, 2⟩ =
      { basePoint := ⟨1, 2⟩,
        rootGroupChildren := [createCircleLine (10e8 * 4 - 1) (10e8 * 4 - 2) 1000] } := by
  simp [Drawing.setBasePoint, Drawing.setBasePointT, Drawing.clearT, Drawing.buildDrawT,
    Drawing.new]

/-! ## Scene containment (`src/scene.ts`)

For the structural claim about `Scene.clear` / `Scene.add` we model the
object-identity structure of the scene graph: the internal `THREE.Scene` has a
list of direct children and the `_rootGroup` has a list of direct children,
with objects identified by ids. -/

/-- `Scene` state (`src/scene.ts`): ids of the direct children of the
internal `THREE.Scene`, the id of `_rootGroup`, and the ids of the direct
children of `_rootGroup`. -/
structure Scene where
  sceneChildren : List ℕ
  rootGroupId : ℕ
  rootGroupChildren : List ℕ

/-- The `Scene` constructor: `new THREE.Scene()`, `new THREE.Group()`,
`this._scene.add(this._rootGroup)`. -/
def Scene.new : Scene :=
  { sceneChildren := [0], rootGroupId := 0, rootGroupChildren := [] }

/-- `Scene.clear`: `this._rootGroup.clear(); this._scene.clear();
this._scene.add(this._rootGroup)`. -/
def Scene.clear (s : Scene) : Scene :=
  { s with rootGroupChildren := [], sceneChildren := [s.rootGroupId] }

/-- `Scene.add`: `this._rootGroup.add(object)`. -/
def Scene.add (s : Scene) (o : ℕ) : Scene :=
  { s with rootGroupChildren := s.rootGroupChildren ++ [o] }

/-- The containment invariant: the root group is a direct child of the
internal `THREE.Scene`, so everything added through `Scene.add` is rendered. -/
def Scene.rootMounted (s : Scene) : Prop :=
  s.rootGroupId ∈ s.sceneChildren

/-! ## Camera (`src/camera.ts`) and View2d (`src/view.ts`)

The orthographic projection follows THREE's
`OrthographicCamera.updateProjectionMatrix` (effective frustum from
`left/right/top/bottom` and `zoom`) composed with `makeOrthographic`, and the
view transform is the translation by the camera position (the rotation is
always the identity in this application).  JavaScript division is modelled by
real division; the only divergence is division by zero (JS yields `Infinity`,
Lean yields `0`) and no theorem below relies on the value of such a
division. -/

/-- Camera state: the `THREE.OrthographicCamera` frustum parameters, zoom and
position wrapped by the `Camera` class. -/
structure Camera where
  left : ℝ
  right : ℝ
  top : ℝ
  bottom : ℝ
  zoom : ℝ
  posX : ℝ
  posY : ℝ
  posZ : ℝ

/-- NDC x-coordinate of a world point: THREE's
`OrthographicCamera.updateProjectionMatrix` (`dx = (right - left) / (2 * zoom)`,
`cx = (right + left) / 2`, effective frustum `[cx - dx, cx + dx]`) followed by
`makeOrthographic` (`ndc = 2 * w * view - (r + l) * w`, `w = 1 / (r - l)`),
applied to the view-space coordinate `wx - posX`. -/
def Camera.projNdcX (c : Camera) (wx : ℝ) : ℝ :=
  let dx := (c.right - c.left) / (2 * c.zoom)
  let cx := (c.right + c.left) / 2
  let l := cx - dx
  let r := cx + dx
  let w := 1 / (r - l)
  2 * w * (wx - c.posX) - (r + l) * w

/-- NDC y-coordinate of a world point, as `Camera.projNdcX` with the
`top/bottom` frustum pair. -/
def Camera.projNdcY (c : Camera) (wy : ℝ) : ℝ :=
  let dy := (c.top - c.bottom) / (2 * c.zoom)
  let cy := (c.top + c.bottom) / 2
  let b := cy - dy
  let t := cy + dy
  let h := 1 / (t - b)
  2 * h * (wy - c.posY) - (t + b) * h

/-- World x-coordinate from an NDC x-coordinate: `Vector3.unproject`
(inverse orthographic projection, then the camera's world translation). -/
def Camera.unprojX (c : Camera) (nx : ℝ) : ℝ :=
  let dx := (c.right - c.left) / (2 * c.zoom)
  let cx := (c.right + c.left) / 2
  let l := cx - dx
  let r := cx + dx
  let w := 1 / (r - l)
  (nx + (r + l) * w) / (2 * w) + c.posX

/-- World y-coordinate from an NDC y-coordinate, as `Camera.unprojX` for the
`top/bottom` frustum pair. -/
def Camera.unprojY (c : Camera) (ny : ℝ) : ℝ :=
  let dy := (c.top - c.bottom) / (2 * c.zoom)
  let cy := (c.top + c.bottom) / 2
  let b := cy - dy
  let t := cy + dy
  let h := 1 / (t - b)
  (ny + (t + b) * h) / (2 * h) + c.posY

/-- `Camera.wcs2Cwcs` (`src/camera.ts`): project the world point to NDC, then
`((ndc.x + 1) / 2) * width` and `((-ndc.y + 1) / 2) * height`. -/
def Camera.wcs2Cwcs (c : Camera) (point : Vec2) (width height : ℝ) : Vec2 :=
  let ndcX := c.projNdcX point.x
  let ndcY := c.projNdcY point.y
  ⟨((ndcX + 1) / 2) * width, ((-ndcY + 1) / 2) * height⟩

/-- `Camera.cwcs2Wcs` (`src/camera.ts`): `(point.x / width) * 2 - 1`,
`-(point.y / height) * 2 + 1`, then `unproject`. -/
def Camera.cwcs2Wcs (c : Camera) (point : Vec2) (width height : ℝ) : Vec2 :=
  let nx := (point.x / width) * 2 - 1
  let ny := -(point.y / height) * 2 + 1
  ⟨c.unprojX nx, c.unprojY ny⟩

/-! ### Bounding boxes (`THREE.Box3`, restricted to the `z = 0` plane)

`Scene.box` runs `this._box.setFromObject(this._scene)`, which unions the
vertices of every geometry in the scene; the empty box is `none` (THREE
represents it as `min = +∞, max = −∞`, and `getCenter` / `getSize` return
`(0, 0, 0)` on it). -/

/-- `Box3.expandByPoint` on a possibly-empty box. -/
def expandByPoint : Option (Vec2 × Vec2) → Vec2 → Option (Vec2 × Vec2)
  | none, p => some (p, p)
  | some (mn, mx), p =>
      some (⟨min mn.x p.x, min mn.y p.y⟩, ⟨max mx.x p.x, max mx.y p.y⟩)

/-- `Box3.setFromObject` over a flat list of materialized objects: the union
of all their vertices, starting from the empty box. -/
def boxOfObjects (objs : List Object3D) : Option (Vec2 × Vec2) :=
  (objs.flatMap Object3D.points).foldl expandByPoint none

/-- `Box3.getCenter`: `(min + max) * 0.5`, or `(0, 0)` for the empty box. -/
def boxCenter : Option (Vec2 × Vec2) → Vec2
  | none => ⟨0, 0⟩
  | some (mn, mx) => ⟨(mn.x + mx.x) * 0.5, (mn.y + mx.y) * 0.5⟩

/-- `Box3.getSize`: `max - min`, or `(0, 0)` for the empty box. -/
def boxSize : Option (Vec2 × Vec2) → Vec2
  | none => ⟨0, 0⟩
  | some (mn, mx) => ⟨mx.x - mn.x, mx.y - mn.y⟩

/-! ### View2d -/

/-- `View2d` state (`src/view.ts`): canvas size, wrapped camera, the
`Drawing` passed to the constructor, whether the drawing's root group is still
inside the scene (the constructor runs `this._scene.add(drawing.rootGroup)`;
`View2d.clear` → `Scene.clear` detaches it), and any objects a host added
directly through the public `Scene.add` of the exposed `scene` getter. -/
structure View2d where
  width : ℝ
  height : ℝ
  camera : Camera
  drawing : Drawing
  sceneHoldsDrawing : Bool
  extraObjects : List Object3D

/-- The materialized objects currently inside the internal `THREE.Scene`:
the drawing's root-group children while that group is attached, plus any
host-added objects. -/
def View2d.sceneObjects (s : View2d) : List Object3D :=
  (if s.sceneHoldsDrawing then s.drawing.rootGroupChildren else []) ++ s.extraObjects

/-- `Scene.box` as `View2d` sees it (`this._scene.box`). -/
def View2d.sceneBox (s : View2d) : Option (Vec2 × Vec2) :=
  boxOfObjects (View2d.sceneObjects s)

/-- `View2d.clear`: `this._scene.clear()`, which empties the scene and leaves
only the scene's own (empty) root group attached — the drawing's root group
and all host-added objects are detached. -/
def View2d.clear (s : View2d) : View2d :=
  { s with sceneHoldsDrawing := false, extraObjects := [] }

/-- `View2d.rebase` (`src/view.ts`): `const box = this._scene.box;
box.getCenter(center); this._drawing.basePoint = new Vector2(center.x,
center.y)`. -/
def View2d.rebase (s : View2d) : View2d :=
  let box := View2d.sceneBox s
  let center := boxCenter box
  { s with drawing := Drawing.setBasePoint s.drawing ⟨center.x, center.y⟩ }

/-- `View2d.zoomTo` (`src/view.ts`): move the camera to the box center
(keeping `z`), set `zoom = min(width / (size.x * margin), height /
(size.y * margin))`, then `updateCameraFrustum()` with `_frustum = 400`. -/
def View2d.zoomTo (s : View2d) (box : Option (Vec2 × Vec2)) (margin : ℝ := 1.1) :
    View2d :=
  let size := boxSize box
  let center := boxCenter box
  let cam1 := { s.camera with posX := center.x, posY := center.y }
  let w := size.x * margin
  let h := size.y * margin
  let widthRatio := s.width / w
  let heightRatio := s.height / h
  let cam2 := { cam1 with zoom := min widthRatio heightRatio }
  let aspect := s.width / s.height
  let cam3 := { cam2 with left := -aspect * 400, right := aspect * 400,
                          top := (400 : ℝ), bottom := (-400 : ℝ) }
  { s with camera := cam3 }

/-- `View2d.zoomToFit`: `this.zoomTo(this._scene.box)`. -/
def View2d.zoomToFit (s : View2d) : View2d :=
  View2d.zoomTo s (View2d.sceneBox s)

/-- `View2d.cwcs2Wcs` (`src/view.ts`): unproject through the camera, then
`wcsPt.add(this._drawing.basePoint)`. -/
def View2d.cwcs2Wcs (s : View2d) (point : Vec2) : Vec2 :=
  (Camera.cwcs2Wcs s.camera point s.width s.height).add s.drawing.basePoint

/-- `View2d.wcs2Cwcs` (`src/view.ts`), as written in the source: project
through the camera, then `cwcsPt.add(this._drawing.basePoint)` — the base
point is added to the *client-window* coordinates after projection. -/
def View2d.wcs2Cwcs (s : View2d) (point : Vec2) : Vec2 :=
  (Camera.wcs2Cwcs s.camera point s.width s.height).add s.drawing.basePoint

/-- The world-to-screen conversion as the spec describes it: subtract the
base point from the world point, then project through the camera.  Stated as
a second definition so the source's `View2d.wcs2Cwcs` can be compared against
it. -/
def View2d.wcs2CwcsSpec (s : View2d) (point : Vec2) : Vec2 :=
  Camera.wcs2Cwcs s.camera (point.sub s.drawing.basePoint) s.width s.height

/-! ### Concrete states used to settle the claims -/

/-- A symmetric unit-frustum orthographic camera at the origin with zoom `1`,
a concrete instance for evaluating the coordinate conversions. -/
def unitCamera : Camera :=
  { left := -1, right := 1, top := 1, bottom := -1, zoom := 1,
    posX := 0, posY := 0, posZ := 500 }

/-- A concrete `View2d` state: 2×2 canvas, unit camera, drawing rebased to
base point `(2, 0)`. -/
def viewBase20 : View2d :=
  { width := 2, height := 2, camera := unitCamera,
    drawing := Drawing.setBasePoint Drawing.new ⟨2, 0⟩,
    sceneHoldsDrawing := true, extraObjects := [] }

/-- A concrete `View2d` state reachable by `view2d.clear()` followed by
`view2d.scene.add(segment)` for one two-point object, with the drawing
previously rebased to `(5, 5)`. -/
def viewExtraSegment : View2d :=
  { width := 2, height := 2, camera := unitCamera,
    drawing := Drawing.setBasePoint Drawing.new ⟨5, 5⟩,
    sceneHoldsDrawing := false,
    extraObjects := [{ points := [⟨0, 0⟩, ⟨2, 2⟩], color := 0 }] }

/-- A concrete `View2d` state with an empty scene (reachable by
`view2d.clear()`), camera at `(5, 5, 500)`, drawing previously rebased to
`(5, 5)`. -/
def viewEmptyScene : View2d :=
  { width := 2, height := 2,
    camera := { unitCamera with posX := 5, posY := 5 },
    drawing := Drawing.setBasePoint Drawing.new ⟨5, 5⟩,
    sceneHoldsDrawing := false, extraObjects := [] }

/-! ## Helper lemmas -/

/-- The trace of the `basePoint` setter is the disposal events of the old
children followed by the single creation event of the new circle. -/
lemma setBasePointT_trace (d : Drawing) (v : Vec2) :
    (Drawing.setBasePointT d v).2 =
      disposeEvents d.rootGroupChildren ++
        [REvent.createObject
          (createCircleLine (10e8 * 4 - v.x) (10e8 * 4 - v.y) 1000).points] := rfl

/-- Every child removed by `clear` gets both of its disposal events. -/
lemma mem_disposeEvents {c : Object3D} :
    ∀ {l : List Object3D}, c ∈ l →
      REvent.disposeGeometry c.points ∈ disposeEvents l ∧
        REvent.disposeMaterial c.color ∈ disposeEvents l := by
  intro l hl
  induction l with
  | nil => cases hl
  | cons a t ih =>
      rcases List.mem_cons.mp hl with h | h
      · subst h
        exact ⟨List.mem_cons_self .., List.mem_cons_of_mem _ (List.mem_cons_self ..)⟩
      · rcases ih h with ⟨h1, h2⟩
        exact ⟨List.mem_cons_of_mem _ (List.mem_cons_of_mem _ h1),
               List.mem_cons_of_mem _ (List.mem_cons_of_mem _ h2)⟩

/-- `clear` emits no creation events. -/
lemma disposeEvents_not_isCreate {e : REvent} :
    ∀ {l : List Object3D}, e ∈ disposeEvents l → e.isCreate = false := by
  intro l he
  induction l with
  | nil => cases he
  | cons a t ih =>
      rcases List.mem_cons.mp he with h | h
      · subst h; rfl
      · rcases List.mem_cons.mp h with h2 | h2
        · subst h2; rfl
        · exact ih h2

/-- In the zip of a nonempty list with its one-step rotation, the pair
(last element, first element) occurs — the closing edge of a line loop. -/
lemma last_head_mem_zip_append :
    ∀ (t : List Vec2) (c first : Vec2),
      ((c :: t).getLast (List.cons_ne_nil c t), first) ∈ (c :: t).zip (t ++ [first]) := by
  intro t
  induction t with
  | nil => intro c first; simp
  | cons b t' ih =>
      intro c first
      have hlast : (c :: b :: t').getLast (List.cons_ne_nil c (b :: t')) =
          (b :: t').getLast (List.cons_ne_nil b t') := by
        simp [List.getLast]
      rw [List.cons_append, List.zip_cons_cons, hlast]
      exact List.mem_cons_of_mem _ (ih b first)

/-- The closing edge of any nonempty `LineLoop`: the pair
(last vertex, first vertex) is among its rendered edges. -/
lemma loopEdges_closing (o : Object3D) (pl pf : Vec2)
    (h1 : o.points.getLast? = some pl) (h2 : o.points.head? = some pf) :
    (pl, pf) ∈ o.loopEdges := by
  unfold Object3D.loopEdges
  rcases hpts : o.points with _ | ⟨a, t⟩
  · rw [hpts] at h1; cases h1
  · rw [hpts] at h1 h2
    have hpf : a = pf := by
      rw [List.head?_cons] at h2; injection h2
    have hpl : (a :: t).getLast (List.cons_ne_nil a t) = pl := by
      rw [List.getLast?_eq_getLast _ (List.cons_ne_nil a t)] at h1
      injection h1
    have hrot : (a :: t).rotate 1 = t ++ [a] := by
      rw [List.rotate_cons_succ, List.rotate_zero]
    rw [hrot, ← hpl, ← hpf]
    exact last_head_mem_zip_append t a a

/-! ## Claims -/

/-- **C8** (confirmed, over the real-number model of JS doubles).  For every
center, radius and segment count `n > 0`, `createCircleLine` produces exactly
`n` points, the `i`-th being
`(centerX + cos(2π·i/n)·r, centerY + sin(2π·i/n)·r)`, and the rendered
`LineLoop` contains the closing edge joining the last point back to the
first.  (`createCircleLine` is a pure function of its arguments in this
embedding, matching the no-side-effects / determinism part of the claim.) -/
theorem createCircleLine_contract (centerX centerY radius : ℝ) (n color : ℕ)
    (hn : 0 < n) :
    (createCircleLine centerX centerY radius n color).points.length = n ∧
      (∀ i, i < n →
        (createCircleLine centerX centerY radius n color).points[i]? =
          some ⟨centerX + Real.cos (2 * Real.pi * i / n) * radius,
                centerY + Real.sin (2 * Real.pi * i / n) * radius⟩) ∧
      (∃ pl pf,
        (createCircleLine centerX centerY radius n color).points.getLast? = some pl ∧
        (createCircleLine centerX centerY radius n color).points.head? = some pf ∧
        (pl, pf) ∈ (createCircleLine centerX centerY radius n color).loopEdges) := by
  refine ⟨by simp [createCircleLine], ?_, ?_⟩
  · intro i hi
    rw [createCircleLine]
    rw [List.getElem?_map, List.getElem?_range hi, Option.map_some']
    refine congrArg some ?_
    have harg : ((i : ℝ) / (n : ℝ)) * Real.pi * 2 = 2 * Real.pi * i / n := by ring
    apply Vec2.ext <;> simp [circlePoint, harg]
  · have hne : (createCircleLine centerX centerY radius n color).points ≠ [] := by
      simp [createCircleLine, List.range_eq_nil]
      omega
    refine ⟨(createCircleLine centerX centerY radius n color).points.getLast hne,
            (createCircleLine centerX centerY radius n color).points.head hne,
            List.getLast?_eq_getLast _ hne, List.head?_eq_head hne, ?_⟩
    exact loopEdges_closing _ _ _ (List.getLast?_eq_getLast _ hne) (List.head?_eq_head hne)

/-- Witness for `createCircleLine_contract` at center `(0, 0)`, radius `1`,
`4` segments, color `0`. -/
theorem createCircleLine_contract_witness :
    (createCircleLine 0 0 1 4 0).points.length = 4 ∧
      (∀ i, i < 4 →
        (createCircleLine 0 0 1 4 0).points[i]? =
          some ⟨0 + Real.cos (2 * Real.pi * i / 4) * 1,
                0 + Real.sin (2 * Real.pi * i / 4) * 1⟩) ∧
      (∃ pl pf,
        (createCircleLine 0 0 1 4 0).points.getLast? = some pl ∧
        (createCircleLine 0 0 1 4 0).points.head? = some pf ∧
        (pl, pf) ∈ (createCircleLine 0 0 1 4 0).loopEdges) :=
  createCircleLine_contract 0 0 1 4 0 (by norm_num)

/-- **C9** (confirmed).  For every base point `b`, assigning
`Drawing.basePoint = b` twice in succession yields identical drawing state —
in particular identical materialized geometry — after each of the two
assignments. -/
theorem setBasePoint_idempotent (d : Drawing) (b : Vec2) :
    Drawing.setBasePoint (Drawing.setBasePoint d b) b = Drawing.setBasePoint d b ∧
      Drawing.materializedPoints (Drawing.setBasePoint (Drawing.setBasePoint d b) b) =
        Drawing.materializedPoints (Drawing.setBasePoint d b) :=
  ⟨rfl, rfl⟩

/-- **C5** (confirmed, over the real-number model of JS doubles).  For every
base point `b` installed through the `basePoint` setter, the `i`-th vertex of
the materialized geometry produced by the subsequent rebuild equals the
corresponding original world-space vertex (the same circle vertex computed
with base point `(0,0)`) minus `b`; equivalently `worldPosition =
materializedPosition + basePoint`. -/
theorem setBasePoint_rebase_consistency (d : Drawing) (b : Vec2) (i : ℕ)
    (h : i < 128) :
    (Drawing.setBasePoint d b).materializedPoints[i]? =
      some (Vec2.sub (circlePoint (10e8 * 4) (10e8 * 4) 1000 128 i) b) := by
  have hpts : (Drawing.setBasePoint d b).materializedPoints =
      (List.range 128).map
        (circlePoint (10e8 * 4 - b.x) (10e8 * 4 - b.y) 1000 128) := by
    simp [Drawing.setBasePoint, Drawing.setBasePointT, Drawing.clearT, Drawing.buildDrawT,
      Drawing.materializedPoints, createCircleLine]
  rw [hpts, List.getElem?_map, List.getElem?_range h, Option.map_some']
  refine congrArg some ?_
  apply Vec2.ext <;> simp [circlePoint, Vec2.sub] <;> ring

/-- Witness for `setBasePoint_rebase_consistency` at base point `(1, 2)` and
vertex index `0`. -/
theorem setBasePoint_rebase_consistency_witness :
    (Drawing.setBasePoint Drawing.new ⟨1, 2⟩).materializedPoints[0]? =
      some (Vec2.sub (circlePoint (10e8 * 4) (10e8 * 4) 1000 128 0) ⟨1, 2⟩) :=
  setBasePoint_rebase_consistency Drawing.new ⟨1, 2⟩ 0 (by norm_num)

/-- **C10** (confirmed).  The internal `THREE.Scene` contains the root group
after the constructor and after every `clear()`/`add()` call, and an object
added after `clear()` sits inside the (still attached) root group. -/
theorem scene_rootGroup_containment (s : Scene) (o : ℕ) (h : Scene.rootMounted s) :
    Scene.rootMounted Scene.new ∧
      Scene.rootMounted (Scene.clear s) ∧
      Scene.rootMounted (Scene.add s o) ∧
      o ∈ (Scene.add (Scene.clear s) o).rootGroupChildren ∧
      Scene.rootMounted (Scene.add (Scene.clear s) o) := by
  refine ⟨?_, ?_, ?_, ?_, ?_⟩ <;>
    simp [Scene.rootMounted, Scene.new, Scene.clear, Scene.add]
  exact h

/-- Witness for `scene_rootGroup_containment` at the freshly constructed
scene and object id `7`. -/
theorem scene_rootGroup_containment_witness :
    Scene.rootMounted Scene.new ∧
      Scene.rootMounted (Scene.clear Scene.new) ∧
      Scene.rootMounted (Scene.add Scene.new 7) ∧
      7 ∈ (Scene.add (Scene.clear Scene.new) 7).rootGroupChildren ∧
      Scene.rootMounted (Scene.add (Scene.clear Scene.new) 7) :=
  scene_rootGroup_containment Scene.new 7
    (by simp [Scene.rootMounted, Scene.new])

/-- **C7** (confirmed).  Every assignment to `Drawing.basePoint` emits, for
each previously materialized object, the disposal of its geometry and of its
material, and every disposal event in the trace precedes every creation
event. -/
theorem setBasePoint_disposes_before_create (d : Drawing) (v : Vec2)
    (c : Object3D) (hc : c ∈ d.rootGroupChildren) (i j : ℕ) (ei ej : REvent)
    (hi : (Drawing.setBasePointT d v).2[i]? = some ei)
    (hj : (Drawing.setBasePointT d v).2[j]? = some ej)
    (hcre : ei.isCreate = true)
    (hdis : ej.isDispose = true) :
    (REvent.disposeGeometry c.points ∈ (Drawing.setBasePointT d v).2 ∧
      REvent.disposeMaterial c.color ∈ (Drawing.setBasePointT d v).2) ∧ j < i := by
  have htr := setBasePointT_trace d v
  rw [htr] at hi hj
  set de := disposeEvents d.rootGroupChildren with hde
  set cr := REvent.createObject
      (createCircleLine (10e8 * 4 - v.x) (10e8 * 4 - v.y) 1000).points with hcr
  refine ⟨?_, ?_⟩
  · rcases mem_disposeEvents hc with ⟨h1, h2⟩
    rw [htr]
    exact ⟨List.mem_append_left _ h1, List.mem_append_left _ h2⟩
  · -- the creation index is past every disposal index
    have hi_ge : ¬ i < de.length := by
      intro hlt
      rw [List.getElem?_append_left hlt] at hi
      have hmem : ei ∈ de := List.getElem?_mem hi
      rw [disposeEvents_not_isCreate hmem] at hcre
      simp at hcre
    have hi_len : i < de.length + 1 := by
      have := List.getElem?_eq_some.mp hi
      simpa using this.1
    have hieq : i = de.length := Nat.le_antisymm (Nat.lt_succ_iff.mp hi_len)
      (Nat.le_of_not_lt hi_ge)
    have hj_lt : j < de.length := by
      rcases Nat.lt_or_ge j de.length with h | h
      · exact h
      · exfalso
        rw [List.getElem?_append_right h] at hj
        have hjlen : j - de.length < 1 := by
          have := List.getElem?_eq_some.mp hj
          simpa using this.1
        have : ([cr])[j - de.length]? = some cr := by
          have h0 : j - de.length = 0 := Nat.lt_one_iff.mp hjlen
          rw [h0]; rfl
        have hsome : some cr = some ej := this.symm.trans hj
        injection hsome with hsome
        subst hsome
        rw [hcr] at hdis
        simp [REvent.isDispose] at hdis
    exact hieq ▸ hj_lt

/-- **C1** (code_bug).  The source's `View2d.wcs2Cwcs` projects the world
point through the camera first and then adds the base point to the resulting
client-window coordinates, instead of subtracting the base point before
projecting as the spec describes: at base point `(2, 0)` the code maps the
world origin to `(3, 1)` while the spec-described conversion maps it to
`(-1, 1)`. -/
theorem wcs2Cwcs_adds_base_after_projection :
    View2d.wcs2Cwcs viewBase20 ⟨0, 0⟩ = ⟨3, 1⟩ ∧
      View2d.wcs2CwcsSpec viewBase20 ⟨0, 0⟩ = ⟨-1, 1⟩ ∧
      View2d.wcs2Cwcs viewBase20 ⟨0, 0⟩ ≠ View2d.wcs2CwcsSpec viewBase20 ⟨0, 0⟩ := by
  refine ⟨?_, ?_, ?_⟩ <;>
    norm_num [View2d.wcs2Cwcs, View2d.wcs2CwcsSpec, Camera.wcs2Cwcs,
      Camera.projNdcX, Camera.projNdcY, Vec2.add, Vec2.sub, unitCamera, viewBase20,
      Drawing.setBasePoint, Drawing.setBasePointT, Drawing.clearT, Drawing.buildDrawT,
      Drawing.new, Vec2.mk.injEq]

/-- **C3** (code_bug).  With base point `(2, 0)` the round trip
`screenToWorld ∘ worldToScreen` of the world origin returns `(4, 0)` instead
of `(0, 0)` — the orthographic projection over exact arithmetic introduces no
tolerance, so the deviation is entirely the base-point handling of
`View2d.wcs2Cwcs`; with the spec-described world-to-screen conversion the
same round trip is exact. -/
theorem roundTrip_fails_with_nonzero_base :
    View2d.cwcs2Wcs viewBase20 (View2d.wcs2Cwcs viewBase20 ⟨0, 0⟩) = ⟨4, 0⟩ ∧
      (⟨4, 0⟩ : Vec2) ≠ ⟨0, 0⟩ ∧
      View2d.cwcs2Wcs viewBase20 (View2d.wcs2CwcsSpec viewBase20 ⟨0, 0⟩) = ⟨0, 0⟩ := by
  refine ⟨?_, ?_, ?_⟩ <;>
    norm_num [View2d.cwcs2Wcs, View2d.wcs2Cwcs, View2d.wcs2CwcsSpec, Camera.wcs2Cwcs,
      Camera.cwcs2Wcs, Camera.projNdcX, Camera.projNdcY, Camera.unprojX, Camera.unprojY,
      Vec2.add, Vec2.sub, unitCamera, viewBase20,
      Drawing.setBasePoint, Drawing.setBasePointT, Drawing.clearT, Drawing.buildDrawT,
      Drawing.new, Vec2.mk.injEq]

/-- **C2** (counterexample).  `View2d.rebase` installs the bounding-box
center *directly* as the new base point; it does not add the current base
point.  Here the box center is `(1, 1)` and the current base point `(5, 5)`:
the claim predicts new base point `(6, 6)`, the code produces `(1, 1)`. -/
theorem rebase_does_not_add_base_counterexample :
    boxCenter (View2d.sceneBox viewExtraSegment) = ⟨1, 1⟩ ∧
      viewExtraSegment.drawing.basePoint = ⟨5, 5⟩ ∧
      (View2d.rebase viewExtraSegment).drawing.basePoint = ⟨1, 1⟩ ∧
      (View2d.rebase viewExtraSegment).drawing.basePoint ≠ Vec2.add ⟨1, 1⟩ ⟨5, 5⟩ := by
  have hbox : View2d.sceneBox viewExtraSegment = some (⟨0, 0⟩, ⟨2, 2⟩) := by
    norm_num [View2d.sceneBox, View2d.sceneObjects, viewExtraSegment, boxOfObjects,
      expandByPoint, min_def, max_def, Vec2.mk.injEq,
      Drawing.setBasePoint, Drawing.setBasePointT, Drawing.clearT, Drawing.buildDrawT,
      Drawing.new]
  have hbp : ∀ s : View2d, (View2d.rebase s).drawing.basePoint =
      ⟨(boxCenter (View2d.sceneBox s)).x, (boxCenter (View2d.sceneBox s)).y⟩ := by
    intro s
    simp [View2d.rebase, Drawing.setBasePoint, Drawing.setBasePointT, Drawing.clearT,
      Drawing.buildDrawT]
  refine ⟨?_, ?_, ?_, ?_⟩
  · rw [hbox]; norm_num [boxCenter, Vec2.mk.injEq]
  · norm_num [viewExtraSegment, Drawing.setBasePoint, Drawing.setBasePointT,
      Drawing.clearT, Drawing.buildDrawT, Drawing.new]
  · rw [hbp, hbox]; norm_num [boxCenter, Vec2.mk.injEq]
  · rw [hbp, hbox]; norm_num [boxCenter, Vec2.add, Vec2.mk.injEq]

/-- **C2** (amended).  `View2d.rebase` reads the scene's bounding box,
computes its center, and installs that center directly — without adding the
current base point — as the Drawing's new base point (which clears and
rebuilds the materialized geometry). -/
theorem rebase_installs_box_center (s : View2d) :
    (View2d.rebase s).drawing =
      Drawing.setBasePoint s.drawing
        ⟨(boxCenter (View2d.sceneBox s)).x, (boxCenter (View2d.sceneBox s)).y⟩ := rfl

/-- **C4** (counterexample).  On an empty scene neither `rebase()` nor
`zoomToFit()` is a no-op: `rebase()` replaces the base point `(5, 5)` with
`(0, 0)` (THREE's `getCenter` of the empty box) and rebuilds the geometry,
and `zoomToFit()` moves the camera from `x = 5` to `x = 0`. -/
theorem empty_scene_not_noop_counterexample :
    View2d.sceneObjects viewEmptyScene = [] ∧
      viewEmptyScene.drawing.basePoint = ⟨5, 5⟩ ∧
      (View2d.rebase viewEmptyScene).drawing.basePoint = ⟨0, 0⟩ ∧
      (View2d.rebase viewEmptyScene).drawing.basePoint ≠
        viewEmptyScene.drawing.basePoint ∧
      (View2d.zoomToFit viewEmptyScene).camera.posX = 0 ∧
      (View2d.zoomToFit viewEmptyScene).camera.posX ≠ viewEmptyScene.camera.posX := by
  refine ⟨?_, ?_, ?_, ?_, ?_, ?_⟩ <;>
    norm_num [View2d.sceneObjects, View2d.rebase, View2d.zoomToFit, View2d.zoomTo,
      View2d.sceneBox, boxOfObjects, boxCenter, boxSize, viewEmptyScene, unitCamera,
      Vec2.mk.injEq, Drawing.setBasePoint, Drawing.setBasePointT, Drawing.clearT,
      Drawing.buildDrawT, Drawing.new]

/-- **C4** (amended).  With an empty scene, `rebase()` installs `(0, 0)` (the
center THREE reports for the empty box) as the base point and rebuilds, and
`zoomToFit()` re-centers the camera on `(0, 0)`; both complete without
failure (they are total here), but neither is a no-op. -/
theorem empty_scene_rebase_zoomToFit_behavior (s : View2d)
    (h : View2d.sceneObjects s = []) :
    (View2d.rebase s).drawing = Drawing.setBasePoint s.drawing ⟨0, 0⟩ ∧
      (View2d.zoomToFit s).camera.posX = 0 ∧
      (View2d.zoomToFit s).camera.posY = 0 := by
  have hbox : View2d.sceneBox s = none := by
    simp [View2d.sceneBox, h, boxOfObjects]
  refine ⟨?_, ?_, ?_⟩ <;>
    simp [View2d.rebase, View2d.zoomToFit, View2d.zoomTo, hbox, boxCenter, boxSize]

/-- Witness for `empty_scene_rebase_zoomToFit_behavior` at the concrete
cleared view state. -/
theorem empty_scene_rebase_zoomToFit_behavior_witness :
    (View2d.rebase viewEmptyScene).drawing =
        Drawing.setBasePoint viewEmptyScene.drawing ⟨0, 0⟩ ∧
      (View2d.zoomToFit viewEmptyScene).camera.posX = 0 ∧
      (View2d.zoomToFit viewEmptyScene).camera.posY = 0 :=
  empty_scene_rebase_zoomToFit_behavior viewEmptyScene
    (by simp [View2d.sceneObjects, viewEmptyScene])

/-- **C6** (counterexample).  The circle's world-space center is
`10e8 * 4 = 4·10⁹`, not `(4·10⁸, 4·10⁸)` as claimed: with the default base
point `(0, 0)` the first materialized vertex has `x = 4000001000`, which lies
far outside `[4·10⁸ − 1000, 4·10⁸ + 1000]`, the x-range of a radius-1000
circle centered at `4·10⁸`. -/
theorem drawing_circle_center_counterexample :
    (Drawing.new.materializedPoints[0]?.map Vec2.x) = some 4000001000 ∧
      ¬ ((4e8 - 1000 : ℝ) ≤ 4000001000 ∧ (4000001000 : ℝ) ≤ 4e8 + 1000) := by
  constructor
  · have h0 : (0 : ℕ) < 128 := by norm_num
    rw [show Drawing.new.materializedPoints =
        (List.range 128).map (circlePoint (10e8 * 4 - 0) (10e8 * 4 - 0) 1000 128) by
      simp [Drawing.new, Drawing.buildDrawT, Drawing.materializedPoints, createCircleLine]]
    rw [List.getElem?_map, List.getElem?_range h0, Option.map_some', Option.map_some']
    norm_num [circlePoint]
  · norm_num

/-- **C6** (amended).  The Drawing holds exactly one primitive: a circle of
radius `1000` with `128` segments whose world-space center is
`(10e8·4, 10e8·4) = (4·10⁹, 4·10⁹)`, so with the default base point `(0, 0)`
its materialized vertices span magnitude ≈ 4·10⁹. -/
theorem drawing_holds_one_circle_at_4e9 (i : ℕ) (hi : i < 128) :
    Drawing.new.rootGroupChildren.length = 1 ∧
      Drawing.new.materializedPoints.length = 128 ∧
      Drawing.new.materializedPoints[i]? =
        some (circlePoint (10e8 * 4) (10e8 * 4) 1000 128 i) ∧
      (Drawing.new.materializedPoints[0]?.map Vec2.x) = some 4000001000 := by
  have hpts : Drawing.new.materializedPoints =
      (List.range 128).map (circlePoint (10e8 * 4 - 0) (10e8 * 4 - 0) 1000 128) := by
    simp [Drawing.new, Drawing.buildDrawT, Drawing.materializedPoints, createCircleLine]
  refine ⟨by simp [Drawing.new, Drawing.buildDrawT], by simp [hpts], ?_, ?_⟩
  · rw [hpts, List.getElem?_map, List.getElem?_range hi, Option.map_some']
    refine congrArg some ?_
    apply Vec2.ext <;> simp [circlePoint]
  · rw [hpts, List.getElem?_map, List.getElem?_range (by norm_num : (0:ℕ) < 128),
      Option.map_some', Option.map_some']
    norm_num [circlePoint]

/-- Witness for `drawing_holds_one_circle_at_4e9` at vertex index `0`. -/
theorem drawing_holds_one_circle_at_4e9_witness :
    Drawing.new.rootGroupChildren.length = 1 ∧
      Drawing.new.materializedPoints.length = 128 ∧
      Drawing.new.materializedPoints[0]? =
        some (circlePoint (10e8 * 4) (10e8 * 4) 1000 128 0) ∧
      (Drawing.new.materializedPoints[0]?.map Vec2.x) = some 4000001000 :=
  drawing_holds_one_circle_at_4e9 0 (by norm_num)

/-- Witness for `setBasePoint_disposes_before_create`: setting the base point
of the freshly constructed drawing to `(1, 2)`, with the old circle as the
previously materialized object, creation index `2` and disposal index `0`. -/
theorem setBasePoint_disposes_before_create_witness :
    (REvent.disposeGeometry (createCircleLine (10e8 * 4 - 0) (10e8 * 4 - 0) 1000).points ∈
        (Drawing.setBasePointT Drawing.new ⟨1, 2⟩).2 ∧
      REvent.disposeMaterial (createCircleLine (10e8 * 4 - 0) (10e8 * 4 - 0) 1000).color ∈
        (Drawing.setBasePointT Drawing.new ⟨1, 2⟩).2) ∧ (0 : ℕ) < 2 :=
  setBasePoint_disposes_before_create Drawing.new ⟨1, 2⟩
    (createCircleLine (10e8 * 4 - 0) (10e8 * 4 - 0) 1000)
    (by exact List.mem_singleton.mpr rfl) 2 0
    (REvent.createObject (createCircleLine (10e8 * 4 - 1) (10e8 * 4 - 2) 1000).points)
    (REvent.disposeGeometry (createCircleLine (10e8 * 4 - 0) (10e8 * 4 - 0) 1000).points)
    (by simp [setBasePointT_trace, disposeEvents, Drawing.new, Drawing.buildDrawT])
    (by simp [setBasePointT_trace, disposeEvents, Drawing.new, Drawing.buildDrawT])
    rfl rfl
